import Mathlib

/-!
Verification of the content-selection and offline-resilience logic of the
Bible new-tab extension: the deterministic selector (src/utils/random.js),
the verse provider (src/shared/verse.js, src/shared/storage.js), the
background provider (src/newtab/imageDB.js and the background-selection
module), the settings store (src/shared/storage.js) and the custom-image
blob store (src/newtab/imageDB.js).  JavaScript numbers are modelled as
Int/Nat with explicit 32-bit wrap where the source relies on it; the
current date, network responses and Math.random draws are explicit
parameters; chrome.storage state is passed explicitly.
-/

namespace BibleNewTab

/-! ## Deterministic selector (src/utils/random.js) -/

/-- JavaScript ToInt32: wrap an integer into the range from -2^31 to 2^31 - 1.
This is what the expression `hash & hash` (and `<< 5`) performs in the source. -/
def toInt32 (n : Int) : Int := (n + 2 ^ 31) % 2 ^ 32 - 2 ^ 31

/-- simpleHash from src/utils/random.js.  Each step computes
`((hash << 5) - hash) + charCode` coerced to a 32-bit signed integer,
which equals `toInt32 (31 * hash + charCode)` because ToInt32 is a ring
homomorphism modulo 2^32.  Characters of the hashed strings here are
ASCII, so `charCodeAt` agrees with the Unicode code point. -/
def simpleHash (s : String) : Int :=
  s.data.foldl (fun h c => toInt32 (31 * h + (c.toNat : Int))) 0

/-- getDailyIndex from src/utils/random.js, with the current date string
(`new Date().toISOString().split('T')[0]`) made an explicit argument. -/
def getDailyIndex (arrayLength : Nat) (seed : String) (today : String) : Nat :=
  (simpleHash (seed ++ "-" ++ today)).natAbs % arrayLength

/-- Model of `Math.floor(Math.random() * n)`: an arbitrary draw reduced into
the range below n; 0 when n = 0 (in JavaScript `Math.floor(0 * r) = 0`). -/
def jsRandInt (draw n : Nat) : Nat := if n = 0 then 0 else draw % n

/-- Whether the first list is an initial segment of the second. -/
def listIsPrefix : List Char → List Char → Bool
  | [], _ => true
  | _ :: _, [] => false
  | p :: ps, c :: cs => p = c && listIsPrefix ps cs

/-- JavaScript String.startsWith over the character lists. -/
def strStartsWith (s pre : String) : Bool :=
  listIsPrefix pre.data s.data

/-- The `availableIndices` computation of getRandomIndexWithHistory:
indices (counted from k) of the items whose id is not in history. -/
def availIdx (idOf : α → String) (history : List String) :
    List α → Nat → List Nat
  | [], _ => []
  | x :: xs, k =>
    if history.contains (idOf x) then availIdx idOf history xs (k + 1)
    else k :: availIdx idOf history xs (k + 1)

/-- getRandomIndexWithHistory from src/utils/random.js.  `draw` models the
single Math.random draw of the call; `idOf` models `item[idKey]`. -/
def getRandomIndexWithHistory (items : List α) (history : List String)
    (idOf : α → String) (draw : Nat) : Nat :=
  let availableIndices := availIdx idOf history items 0
  if availableIndices.isEmpty then jsRandInt draw items.length
  else availableIndices.getD (jsRandInt draw availableIndices.length) 0

/-! ## Verse text cleaning (src/shared/verse.js and the backend daily-verse
endpoint) -/

/-- The whitespace class matched by the regular expressions in the source
texts (plain ASCII whitespace). -/
def isWs (c : Char) : Bool :=
  c = ' ' || c = '\t' || c = '\n' || c = '\r' ||
  c = Char.ofNat 11 || c = Char.ofNat 12

/-- Replace every maximal run of whitespace by one space: the global
whitespace-collapsing replace used by both text cleaners.  The flag records
whether the previous character belonged to a whitespace run. -/
def collapseWsAux : List Char → Bool → List Char
  | [], _ => []
  | c :: cs, prevWs =>
    if isWs c then
      if prevWs then collapseWsAux cs true
      else ' ' :: collapseWsAux cs true
    else c :: collapseWsAux cs false

/-- JavaScript String.trim over a character list. -/
def trimWs (l : List Char) : List Char :=
  ((l.dropWhile fun c => isWs c).reverse.dropWhile fun c => isWs c).reverse

/-- The passage-text cleanup inside fetchFromESV (src/shared/verse.js):
collapse whitespace runs to single spaces, then trim.  No bracket
stripping happens on this path. -/
def cleanESVText (s : String) : String :=
  String.mk (trimWs (collapseWsAux s.data false))

/-- Worker for stripBrackets.  Every recursive call consumes at least one
character, so running it with fuel equal to the input length (as
stripBrackets does) never exhausts the fuel. -/
def stripBracketsAux : Nat → List Char → List Char
  | 0, l => l
  | _ + 1, [] => []
  | fuel + 1, c :: cs =>
    if c = '[' then
      match cs.dropWhile (fun d => d.isDigit) with
      | ']' :: rest =>
        if cs.takeWhile (fun d => d.isDigit) = [] then
          '[' :: stripBracketsAux fuel cs
        else stripBracketsAux fuel rest
      | _ => '[' :: stripBracketsAux fuel cs
    else c :: stripBracketsAux fuel cs

/-- Remove every occurrence of a bracketed digit run (one or more digits
between square brackets): the first replace of the backend cleanVerseText. -/
def stripBrackets (l : List Char) : List Char :=
  stripBracketsAux l.length l

/-- cleanVerseText from the backend daily-verse endpoint: strip bracketed
footnote markers, collapse whitespace, trim. -/
def cleanVerseText (s : String) : String :=
  String.mk (trimWs (collapseWsAux (stripBrackets s.data) false))

/-! ## Lemmas about the selector -/

/-! ## Verse provider data model (src/shared/verse.js, src/shared/storage.js,
src/shared/constants.js) -/

/-- MAX_DAILY_API_CALLS from src/shared/constants.js. -/
def MAX_DAILY_API_CALLS : Nat := 5

/-- MAX_VERSE_HISTORY from src/shared/constants.js. -/
def MAX_VERSE_HISTORY : Nat := 20

/-- The translation value of DEFAULT_SETTINGS in src/shared/constants.js. -/
def DEFAULT_TRANSLATION : String := "NKJV"

/-- A verse as produced by the verse provider. -/
structure Verse where
  reference : String
  text : String
  translation : String
  isOffline : Bool
deriving DecidableEq, Repr

/-- An entry of the bundled NKJV verse list (data/nkjv-fallback.json). -/
structure BVerse where
  id : String
  reference : String
  text : String
deriving DecidableEq, Repr

/-- The parsed bundled verse file. -/
structure NKJVData where
  translation : String
  verses : List BVerse
deriving DecidableEq, Repr

/-- The built-in minimal fallback returned by loadNKJVVerses when the
bundled JSON cannot be read (src/shared/verse.js). -/
def builtinNKJVData : NKJVData :=
  { translation := "NKJV"
    verses := [
      { id := "john-3-16"
        reference := "John 3:16"
        text := "For God so loved the world that He gave His only begotten Son, that whoever believes in Him should not perish but have everlasting life." }] }

/-- The per-day api-usage record (src/shared/storage.js). -/
structure ApiUsage where
  date : String
  callCount : Nat
  fetchedVerses : List Verse
deriving DecidableEq, Repr

/-- The JSON body of a successful ESV passage response, as read by
fetchFromESV: the canonical reference (empty string models a falsy value)
and the passages array. -/
structure ESVResp where
  canonical : String
  passages : List String
deriving DecidableEq, Repr

/-- The external world of a getVerse call: the current date string, the
parsed bundled verse file (none when unreadable), the ESV API response per
queried reference (none models a network or HTTP failure), and the stream
of Math.random draws. -/
structure VerseEnv where
  today : String
  bundle : Option NKJVData
  fetchESV : String → Option ESVResp
  rnd : Nat → Nat

/-- The chrome.storage state read and written by the verse provider:
the merged translation setting, the cached-daily-verse record (date and
verse), the api-usage record, the verse-rotation index, the verse-history
list, and the position in the random stream. -/
structure VerseSt where
  translation : String
  cachedDaily : Option (String × Verse)
  apiUsage : Option ApiUsage
  rotation : Option Nat
  verseHistory : List String
  rndIdx : Nat
deriving DecidableEq, Repr

inductive Mode where
  | daily
  | random
deriving DecidableEq, Repr

/-- Placeholder used where JavaScript would read an out-of-range array
element; every indexing in the proofs is shown to stay in range. -/
def junkBVerse : BVerse := { id := "", reference := "", text := "" }

def junkVerse : Verse :=
  { reference := "", text := "", translation := "", isOffline := false }

/-- getCachedDailyVerse from src/shared/storage.js: the cached verse when
its stored date equals today, else null. -/
def getCachedDailyVerse (env : VerseEnv) (st : VerseSt) : Option Verse :=
  match st.cachedDaily with
  | none => none
  | some (d, v) => if d = env.today then some v else none

/-- getApiUsage from src/shared/storage.js: the stored record when its
date is today, otherwise a fresh zero record for today. -/
def getApiUsage (env : VerseEnv) (st : VerseSt) : ApiUsage :=
  match st.apiUsage with
  | some u => if u.date = env.today then u else ⟨env.today, 0, []⟩
  | none => ⟨env.today, 0, []⟩

/-- canMakeApiCall from src/shared/storage.js. -/
def canMakeApiCall (env : VerseEnv) (st : VerseSt) : Bool :=
  (getApiUsage env st).callCount < MAX_DAILY_API_CALLS

/-- recordApiCall from src/shared/storage.js: push the verse to the
fetched list unless a verse with the same reference is already there,
then increment the call counter and store the record. -/
def recordApiCall (env : VerseEnv) (st : VerseSt) (v : Verse) : VerseSt :=
  let u := getApiUsage env st
  let fetched :=
    if u.fetchedVerses.any fun w => w.reference = v.reference then
      u.fetchedVerses
    else u.fetchedVerses ++ [v]
  { st with apiUsage := some ⟨u.date, u.callCount + 1, fetched⟩ }

/-- getVerseRotationIndex from src/shared/storage.js. -/
def getVerseRotationIndex (st : VerseSt) : Nat :=
  st.rotation.getD 0

/-- incrementVerseRotationIndex from src/shared/storage.js:
newIndex = (index + 1) % (maxIndex + 1). -/
def incrementVerseRotationIndex (st : VerseSt) (maxIndex : Nat) : VerseSt :=
  { st with rotation := some ((st.rotation.getD 0 + 1) % (maxIndex + 1)) }

/-- cacheDailyVerse from src/shared/storage.js. -/
def cacheDailyVerse (env : VerseEnv) (st : VerseSt) (v : Verse) : VerseSt :=
  { st with cachedDaily := some (env.today, v) }

/-- addToHistory from src/shared/storage.js: move-to-front insert,
trimmed to maxSize. -/
def addToHistory (hist : List String) (itemId : String) (maxSize : Nat) :
    List String :=
  ((itemId :: hist.filter fun i => i ≠ itemId).take maxSize)

/-- loadNKJVVerses from src/shared/verse.js: the parsed bundled file, or
the built-in minimal data when it cannot be read. -/
def loadNKJVVerses (env : VerseEnv) : NKJVData :=
  env.bundle.getD builtinNKJVData

/-- getNKJVFallback from src/shared/verse.js: pick from the bundled list
by daily index or by history-avoiding random draw (recording history in
the random case), and wrap as an offline NKJV verse. -/
def getNKJVFallback (mode : Mode) (env : VerseEnv) (st : VerseSt) :
    Verse × VerseSt :=
  let verses := (loadNKJVVerses env).verses
  match mode with
  | .daily =>
    let index := getDailyIndex verses.length "nkjv-verse" env.today
    let v := verses.getD index junkBVerse
    (⟨v.reference, v.text, "NKJV", true⟩, st)
  | .random =>
    let index := getRandomIndexWithHistory verses st.verseHistory
      (fun b => b.id) (env.rnd st.rndIdx)
    let v := verses.getD index junkBVerse
    (⟨v.reference, v.text, "NKJV", true⟩,
      { st with
        verseHistory := addToHistory st.verseHistory v.id MAX_VERSE_HISTORY
        rndIdx := st.rndIdx + 1 })

/-- fetchFromESV from src/shared/verse.js: a failed request or an empty
passages array is a thrown error (none); otherwise the verse is built from
the canonical reference (falling back to the queried reference when falsy)
and the first passage with whitespace collapsed and trimmed. -/
def fetchFromESV (reference : String) (env : VerseEnv) : Option Verse :=
  match env.fetchESV reference with
  | none => none
  | some resp =>
    match resp.passages with
    | [] => none
    | p :: _ =>
      some
        { reference := if resp.canonical = "" then reference else resp.canonical
          text := cleanESVText p
          translation := "ESV"
          isOffline := false }

/-- getDailyVerseReference / getRandomVerseReference followed by
fetchFromESV (fetchVerseFromESV in src/shared/verse.js).  The random case
consumes one Math.random draw for the reference pick. -/
def fetchVerseFromESV (mode : Mode) (env : VerseEnv) (st : VerseSt) :
    Option Verse × VerseSt :=
  let verses := (loadNKJVVerses env).verses
  match mode with
  | .daily =>
    let index := getDailyIndex verses.length "daily-verse" env.today
    (fetchFromESV (verses.getD index junkBVerse).reference env, st)
  | .random =>
    let index := jsRandInt (env.rnd st.rndIdx) verses.length
    (fetchFromESV (verses.getD index junkBVerse).reference env,
      { st with rndIdx := st.rndIdx + 1 })

/-- Which branch of getVerse produced the returned verse. -/
inductive VSource where
  | cache
  | offline
  | fetched
  | rotation
deriving DecidableEq, Repr

/-- Result of a getVerse call: the verse, the updated storage state, the
branch that produced the verse, and how many ESV API requests were made. -/
structure GVRes where
  verse : Verse
  st : VerseSt
  source : VSource
  esvAttempts : Nat
deriving DecidableEq, Repr

/-- The forceNew rotation-or-fallback tail of getVerse
(src/shared/verse.js lines 203-215): cycle through the verses fetched
today, advancing the rotation index and caching unconditionally; fall back
to the NKJV bundle when nothing was fetched today. -/
def rotateForce (mode : Mode) (env : VerseEnv) (st : VerseSt)
    (attempts : Nat) : GVRes :=
  let fetched := (getApiUsage env st).fetchedVerses
  if fetched.length > 0 then
    let index := getVerseRotationIndex st
    let v := fetched.getD (index % fetched.length) junkVerse
    let st1 := incrementVerseRotationIndex st (fetched.length - 1)
    let st2 := cacheDailyVerse env st1 v
    ⟨v, st2, .rotation, attempts⟩
  else
    let p := getNKJVFallback mode env st
    ⟨p.1, p.2, .offline, attempts⟩

/-- The normal-flow rotation-or-fallback tail of getVerse
(src/shared/verse.js lines 233-246): read the rotation entry without
advancing the index, cache only in daily mode; fall back to the NKJV
bundle when nothing was fetched today. -/
def rotateNormal (mode : Mode) (env : VerseEnv) (st : VerseSt)
    (attempts : Nat) : GVRes :=
  let fetched := (getApiUsage env st).fetchedVerses
  if fetched.length > 0 then
    let index := getVerseRotationIndex st
    let v := fetched.getD (index % fetched.length) junkVerse
    let st1 := if mode = .daily then cacheDailyVerse env st v else st
    ⟨v, st1, .rotation, attempts⟩
  else
    let p := getNKJVFallback mode env st
    ⟨p.1, p.2, .offline, attempts⟩

/-- The `settings.translation || 'ESV'` read at the top of getVerse. -/
def effTranslation (st : VerseSt) : String :=
  if st.translation = "" then "ESV" else st.translation

/-- The cached-daily-verse check of getVerse: only consulted in daily mode
without forceNew, and only accepted when the cached translation equals the
current preference. -/
def verseCacheHit (mode : Mode) (forceNew : Bool) (env : VerseEnv)
    (st : VerseSt) : Option Verse :=
  if mode = .daily && !forceNew then
    match getCachedDailyVerse env st with
    | some c => if c.translation = effTranslation st then some c else none
    | none => none
  else none

/-- getVerse from src/shared/verse.js.  The steps mirror the source: read
the merged translation preference (falling back to ESV when falsy), check
the cached daily verse in non-forced daily mode, take the offline path for
NKJV, otherwise attempt a quota-checked ESV fetch and fall through to
rotation or to the offline bundle. -/
def getVerse (mode : Mode) (forceNew : Bool) (env : VerseEnv)
    (st : VerseSt) : GVRes :=
  match verseCacheHit mode forceNew env st with
  | some c => ⟨c, st, .cache, 0⟩
  | none =>
    if effTranslation st = "NKJV" then
      let p := getNKJVFallback mode env st
      let st2 := if mode = .daily then cacheDailyVerse env p.2 p.1 else p.2
      ⟨p.1, st2, .offline, 0⟩
    else if forceNew then
      if canMakeApiCall env st then
        let fr := fetchVerseFromESV mode env st
        match fr.1 with
        | some v =>
          let st2 := recordApiCall env fr.2 v
          let st3 := cacheDailyVerse env st2 v
          ⟨v, st3, .fetched, 1⟩
        | none => rotateForce mode env fr.2 1
      else rotateForce mode env st 0
    else
      if canMakeApiCall env st then
        let fr := fetchVerseFromESV mode env st
        match fr.1 with
        | some v =>
          let st2 := recordApiCall env fr.2 v
          let st3 := if mode = .daily then cacheDailyVerse env st2 v else st2
          ⟨v, st3, .fetched, 1⟩
        | none => rotateNormal mode env fr.2 1
      else rotateNormal mode env st 0

/-! ## Settings and key-value store (src/shared/storage.js,
src/shared/constants.js) -/

/-- The per-category enablement map with every category present. -/
structure Cats where
  nature : Bool
  galaxy : Bool
  oceans : Bool
  mountains : Bool
  underwater : Bool
deriving DecidableEq, Repr

/-- A stored enablement map, possibly missing categories. -/
structure CatsPartial where
  nature : Option Bool
  galaxy : Option Bool
  oceans : Option Bool
  mountains : Option Bool
  underwater : Option Bool
deriving DecidableEq, Repr

/-- A fully merged settings object. -/
structure SettingsFull where
  verseMode : String
  backgroundMode : String
  backgroundSource : String
  theme : String
  translation : String
  fontSize : String
  enabledCategories : Cats
deriving DecidableEq, Repr

/-- A partial settings object: what may be stored, or passed to
updateSettings.  A field is none when the key is absent. -/
structure SettingsPartial where
  verseMode : Option String
  backgroundMode : Option String
  backgroundSource : Option String
  theme : Option String
  translation : Option String
  fontSize : Option String
  enabledCategories : Option CatsPartial
deriving DecidableEq, Repr

/-- DEFAULT_SETTINGS from src/shared/constants.js. -/
def DEFAULT_SETTINGS : SettingsFull :=
  { verseMode := "daily"
    backgroundMode := "daily"
    backgroundSource := "unsplash"
    theme := "light"
    translation := "NKJV"
    fontSize := "medium"
    enabledCategories :=
      { nature := true, galaxy := true, oceans := true, mountains := true
        underwater := true } }

def emptyCatsPartial : CatsPartial :=
  { nature := none, galaxy := none, oceans := none, mountains := none
    underwater := none }

/-- The category-map spread merge used by getSettings and updateSettings. -/
def mergeCats (base : Cats) (p : CatsPartial) : Cats :=
  { nature := p.nature.getD base.nature
    galaxy := p.galaxy.getD base.galaxy
    oceans := p.oceans.getD base.oceans
    mountains := p.mountains.getD base.mountains
    underwater := p.underwater.getD base.underwater }

/-- The object-spread merge over settings used by getSettings and
updateSettings, including the nested enabledCategories merge. -/
def mergeSettings (base : SettingsFull) (p : SettingsPartial) : SettingsFull :=
  { verseMode := p.verseMode.getD base.verseMode
    backgroundMode := p.backgroundMode.getD base.backgroundMode
    backgroundSource := p.backgroundSource.getD base.backgroundSource
    theme := p.theme.getD base.theme
    translation := p.translation.getD base.translation
    fontSize := p.fontSize.getD base.fontSize
    enabledCategories :=
      mergeCats base.enabledCategories (p.enabledCategories.getD emptyCatsPartial) }

/-- A value stored in chrome.storage.sync: the JSON null, a settings
object, or any other JSON value (opaque for these proofs). -/
inductive JVal where
  | vnull
  | vsettings (s : SettingsPartial)
  | vother (n : Nat)
deriving DecidableEq, Repr

/-- The chrome.storage.sync key space. -/
def Store : Type := String → Option JVal

/-- The storage set wrapper from src/shared/storage.js. -/
def setStore (k : String) (v : JVal) (store : Store) : Store :=
  fun q => if q = k then some v else store q

/-- getSettings from src/shared/storage.js: the stored settings deep-merged
over the defaults; the defaults when the key is absent or not a settings
object. -/
def getSettings (store : Store) : SettingsFull :=
  match store "settings" with
  | some (.vsettings p) => mergeSettings DEFAULT_SETTINGS p
  | _ => DEFAULT_SETTINGS

def fullToPartial (s : SettingsFull) : SettingsPartial :=
  { verseMode := some s.verseMode
    backgroundMode := some s.backgroundMode
    backgroundSource := some s.backgroundSource
    theme := some s.theme
    translation := some s.translation
    fontSize := some s.fontSize
    enabledCategories := some
      { nature := some s.enabledCategories.nature
        galaxy := some s.enabledCategories.galaxy
        oceans := some s.enabledCategories.oceans
        mountains := some s.enabledCategories.mountains
        underwater := some s.enabledCategories.underwater } }

/-- The `backgroundKeys.some(key => key in partial)` test of updateSettings:
whether the partial update carries any background-affecting key. -/
def backgroundChanged (p : SettingsPartial) : Bool :=
  p.backgroundMode.isSome || p.backgroundSource.isSome ||
    p.enabledCategories.isSome

/-- updateSettings from src/shared/storage.js: merge the partial over the
current settings, store the result under the settings key, and clear the
cached-daily-image key (write null) when a background-affecting key is in
the partial. -/
def updateSettings (p : SettingsPartial) (store : Store) :
    SettingsFull × Store :=
  let current := getSettings store
  let updated := mergeSettings current p
  let store1 := setStore "settings" (.vsettings (fullToPartial updated)) store
  let store2 :=
    if backgroundChanged p then setStore "cached-daily-image" .vnull store1
    else store1
  (updated, store2)

/-! ## Custom-image blob store (src/newtab/imageDB.js) -/

/-- MAX_IMAGES from src/newtab/imageDB.js. -/
def MAX_CUSTOM_IMAGES : Nat := 10

/-- MAX_IMAGE_HISTORY from src/shared/constants.js. -/
def MAX_IMAGE_HISTORY : Nat := 5

/-- The relevant data of a File handed to addImage. -/
structure ImgFile where
  name : String
  type : String
  size : Nat
deriving DecidableEq, Repr

/-- A record of the customImages object store (raw blob bytes elided:
no property proved here depends on them). -/
structure CustomMeta where
  id : String
  name : String
  type : String
  size : Nat
  order : Nat
  addedAt : Nat
deriving DecidableEq, Repr

/-- Stable insertion of a record into an order-sorted list: the record
goes before the first strictly later entry with an order not below its
own, matching the stable `sort((a, b) => a.order - b.order)`. -/
def insertByOrder (x : CustomMeta) : List CustomMeta → List CustomMeta
  | [] => [x]
  | y :: ys =>
    if x.order ≤ y.order then x :: y :: ys else y :: insertByOrder x ys

/-- The ascending-by-order sort applied by getAllImages. -/
def sortByOrder : List CustomMeta → List CustomMeta
  | [] => []
  | x :: xs => insertByOrder x (sortByOrder xs)

/-- getAllImages from src/newtab/imageDB.js: every stored record, as
metadata, sorted ascending by order. -/
def getAllImages (db : List CustomMeta) : List CustomMeta :=
  sortByOrder db

/-- addImage from src/newtab/imageDB.js.  The quota, media-type and size
checks run, in that order, before anything is written; each failure throws
and leaves the store as it was.  `newId` models the generated
time-and-random id and `now` models Date.now(); IndexedDB rejects a
duplicate key at the final `store.add`. -/
def addImage (file : ImgFile) (newId : String) (now : Nat)
    (db : List CustomMeta) : Except String CustomMeta × List CustomMeta :=
  let currentImages := getAllImages db
  if currentImages.length ≥ MAX_CUSTOM_IMAGES then
    (.error "Maximum of 10 images allowed. Please remove an image first.", db)
  else if !(strStartsWith file.type "image/") then
    (.error "File must be an image", db)
  else if file.size > 5 * 1024 * 1024 then
    (.error "Image must be smaller than 5MB", db)
  else
    let maxOrder := currentImages.foldl (fun m img => max m img.order) 0
    let imageData : CustomMeta :=
      { id := newId, name := file.name, type := file.type, size := file.size
        order := maxOrder + 1, addedAt := now }
    if db.any fun r => r.id = newId then (.error "ConstraintError", db)
    else (.ok imageData, db ++ [imageData])

/-! ## Background provider (src/newtab/imageDB.js, background-selection
module) -/

/-- An entry of the bundled image catalog (data/images.json). -/
structure ImagesMeta where
  id : String
  category : String
  filename : String
  alt : String
deriving DecidableEq, Repr

/-- The JSON body of a successful backend background-image response. -/
structure UnsplashData where
  id : String
  url : String
  alt : String
  category : String
  photographer : String
  photographerUrl : String
deriving DecidableEq, Repr

/-- A background image as produced by the background provider.  Local and
remote images carry no isCustom property in the source; the false value
models that absent (falsy) property. -/
structure BgImage where
  id : String
  path : String
  alt : String
  category : String
  photographer : Option String
  photographerUrl : Option String
  isUnsplash : Bool
  isCustom : Bool
deriving DecidableEq, Repr

/-- The external world of a getBackgroundImage call: the date, the parsed
bundled catalog (none when unreadable), the blob store contents, object-URL
creation per image id (none when the record or blob is missing), the
backend search outcome per category (the two-backend retry chain collapsed
into one result; none models overall failure), the preload check per URL,
the Math.random stream and the coin stream for the both-source choice. -/
structure BgEnv where
  today : String
  imagesData : Option (List ImagesMeta)
  customImages : List CustomMeta
  imageUrl : String → Option String
  unsplash : String → Option UnsplashData
  preloadOk : String → Bool
  rnd : Nat → Nat
  coin : Nat → Bool

/-- The mutable state of the background provider: the cached-daily-image
record, the two history lists, and the position in the random streams. -/
structure BgSt where
  cachedImage : Option (String × BgImage)
  imageHistory : List String
  customHistory : List String
  rndIdx : Nat
deriving DecidableEq, Repr

/-- The minimal catalog used when data/images.json cannot be read. -/
def builtinImagesData : List ImagesMeta :=
  [{ id := "nature-01", category := "nature"
     filename := "backgrounds/nature/nature-01.webp"
     alt := "Nature background" }]

def junkImagesMeta : ImagesMeta :=
  { id := "", category := "", filename := "", alt := "" }

def junkCustomMeta : CustomMeta :=
  { id := "", name := "", type := "", size := 0, order := 0, addedAt := 0 }

/-- The `enabledCategories[category] === true` lookup. -/
def catEnabled (cats : Cats) (c : String) : Bool :=
  if c = "nature" then cats.nature
  else if c = "galaxy" then cats.galaxy
  else if c = "oceans" then cats.oceans
  else if c = "mountains" then cats.mountains
  else if c = "underwater" then cats.underwater
  else false

/-- filterByCategories from the background module: keep the enabled
categories, but ignore the filter when it would empty the list. -/
def filterByCategories (images : List ImagesMeta) (cats : Cats) :
    List ImagesMeta :=
  let filtered := images.filter fun img => catEnabled cats img.category
  if filtered.isEmpty then images else filtered

/-- The enabled-category list in its object iteration order (the insertion
order of DEFAULT_SETTINGS). -/
def enabledList (cats : Cats) : List String :=
  (if cats.nature then ["nature"] else []) ++
  (if cats.galaxy then ["galaxy"] else []) ++
  (if cats.oceans then ["oceans"] else []) ++
  (if cats.mountains then ["mountains"] else []) ++
  (if cats.underwater then ["underwater"] else [])

/-- The `today.split('-').reduce((acc, val) => acc + parseInt(val), 0)`
hash of getDailyCategory. -/
def dateComponentSum (s : String) : Nat :=
  ((s.splitOn "-").map fun p => p.toNat?.getD 0).sum

/-- getDailyCategory from the background module. -/
def getDailyCategory (cats : Cats) (today : String) : String :=
  let enabled := enabledList cats
  if enabled.isEmpty then "nature"
  else enabled.getD (dateComponentSum today % enabled.length) "nature"

/-- getRandomCategory from the background module. -/
def getRandomCategory (cats : Cats) (draw : Nat) : String :=
  let enabled := enabledList cats
  if enabled.isEmpty then "nature"
  else enabled.getD (jsRandInt draw enabled.length) "nature"

def loadImagesData (env : BgEnv) : List ImagesMeta :=
  env.imagesData.getD builtinImagesData

/-- fetchUnsplashImage from the background module: resolve the category
(consuming a random draw in random mode), query the backend, and wrap a
successful response with isUnsplash set. -/
def fetchUnsplashImage (mode : Mode) (cats : Cats) (env : BgEnv)
    (st : BgSt) : Option BgImage × BgSt :=
  let (category, st1) :=
    match mode with
    | .daily => (getDailyCategory cats env.today, st)
    | .random =>
      (getRandomCategory cats (env.rnd st.rndIdx),
        { st with rndIdx := st.rndIdx + 1 })
  match env.unsplash category with
  | none => (none, st1)
  | some u =>
    (some
      { id := u.id, path := u.url, alt := u.alt, category := u.category
        photographer := some u.photographer
        photographerUrl := some u.photographerUrl
        isUnsplash := true, isCustom := false }, st1)

/-- getLocalImage from the background module: pick from the bundled
catalog filtered to enabled categories, by daily index or by
history-avoiding random draw (recording image history in the random
case). -/
def getLocalImage (mode : Mode) (cats : Cats) (env : BgEnv) (st : BgSt) :
    BgImage × BgSt :=
  let filteredImages := filterByCategories (loadImagesData env) cats
  match mode with
  | .daily =>
    let image := filteredImages.getD
      (getDailyIndex filteredImages.length "bg-image" env.today)
      junkImagesMeta
    ({ id := image.id, path := "images/" ++ image.filename, alt := image.alt
       category := image.category, photographer := none
       photographerUrl := none, isUnsplash := false, isCustom := false }, st)
  | .random =>
    let index := getRandomIndexWithHistory filteredImages st.imageHistory
      (fun i => i.id) (env.rnd st.rndIdx)
    let image := filteredImages.getD index junkImagesMeta
    ({ id := image.id, path := "images/" ++ image.filename, alt := image.alt
       category := image.category, photographer := none
       photographerUrl := none, isUnsplash := false, isCustom := false },
      { st with
        imageHistory := addToHistory st.imageHistory image.id MAX_IMAGE_HISTORY
        rndIdx := st.rndIdx + 1 })

/-- getCustomImage from the background module: pick from the blob store by
daily index, or randomly among the records not in the custom-image history
(any record when all are in history), recording history; then resolve the
object URL, failing (none) when it cannot be produced. -/
def getCustomImage (mode : Mode) (env : BgEnv) (st : BgSt) :
    Option BgImage × BgSt :=
  let customImages := getAllImages env.customImages
  if customImages.isEmpty then (none, st)
  else
    let (selected, st1) :=
      match mode with
      | .daily =>
        (customImages.getD
          (getDailyIndex customImages.length "custom-image" env.today)
          junkCustomMeta, st)
      | .random =>
        let available := customImages.filter fun (img : CustomMeta) =>
          !(st.customHistory.contains img.id)
        let sel :=
          if available.isEmpty then
            customImages.getD
              (jsRandInt (env.rnd st.rndIdx) customImages.length)
              junkCustomMeta
          else
            available.getD (jsRandInt (env.rnd st.rndIdx) available.length)
              junkCustomMeta
        (sel,
          { st with customHistory := addToHistory st.customHistory sel.id 5
                    rndIdx := st.rndIdx + 1 })
    match env.imageUrl selected.id with
    | none => (none, st1)
    | some url =>
      (some
        { id := selected.id, path := url
          alt := if selected.name = "" then "Custom background"
                 else selected.name
          category := "custom", photographer := none, photographerUrl := none
          isUnsplash := false, isCustom := true }, st1)

/-- The cache write at the end of getBackgroundImage: store the resolved
image under the cached-daily-image key in daily mode. -/
def finishBg (mode : Mode) (env : BgEnv) (st : BgSt) (image : BgImage) :
    BgImage × BgSt :=
  if mode = .daily then
    (image, { st with cachedImage := some (env.today, image) })
  else (image, st)

/-- The preload verification applied to a fetched remote image: a remote
image whose URL fails to load is discarded. -/
def preloadCheck (env : BgEnv) (imgOpt : Option BgImage) : Option BgImage :=
  match imgOpt with
  | some img =>
    if img.isUnsplash && !(env.preloadOk img.path) then none else some img
  | none => none

/-- The portion of getBackgroundImage after the daily-cache check: the
per-source selection with its fallback chains, ending with the daily cache
write. -/
def computeBackground (mode : Mode) (cats : Cats) (source : String)
    (env : BgEnv) (st : BgSt) : BgImage × BgSt :=
  if source = "custom" then
    match getCustomImage mode env st with
    | (some img, st1) => finishBg mode env st1 img
    | (none, st1) =>
      let (img, st2) := getLocalImage mode cats env st1
      finishBg mode env st2 img
  else if source = "both" then
    let customCount := (getAllImages env.customImages).length
    let (useCustom, stA) :=
      if customCount > 0 then
        (env.coin st.rndIdx, { st with rndIdx := st.rndIdx + 1 })
      else (false, st)
    let (imgOpt, stB) :=
      if useCustom then getCustomImage mode env stA else (none, stA)
    match imgOpt with
    | some img => finishBg mode env stB img
    | none =>
      let (uOpt, stC) := fetchUnsplashImage mode cats env stB
      match preloadCheck env uOpt with
      | some img => finishBg mode env stC img
      | none =>
        let (img, stD) := getLocalImage mode cats env stC
        finishBg mode env stD img
  else
    let (uOpt, stC) := fetchUnsplashImage mode cats env st
    match preloadCheck env uOpt with
    | some img => finishBg mode env stC img
    | none =>
      let (img, stD) := getLocalImage mode cats env stC
      finishBg mode env stD img

/-- The cache-acceptance test of getBackgroundImage: the cached image is
kept when its source type (custom or not) matches the current source
setting; the both setting accepts either. -/
def sourceMatchesCache (source : String) (isCustom : Bool) : Bool :=
  (source = "custom" && isCustom) || (source = "unsplash" && !isCustom) ||
    source = "both"

/-- getBackgroundImage from the background module: in daily mode, return a
cached image dated today when its source type matches the current source
setting; otherwise recompute. -/
def getBackgroundImage (mode : Mode) (cats : Cats) (source : String)
    (env : BgEnv) (st : BgSt) : BgImage × BgSt :=
  if mode = .daily then
    match st.cachedImage with
    | some (d, img) =>
      if d = env.today then
        if sourceMatchesCache source img.isCustom then (img, st)
        else computeBackground mode cats source env st
      else computeBackground mode cats source env st
    | none => computeBackground mode cats source env st
  else computeBackground mode cats source env st

/-- The daily offline selection: what getNKJVFallback in daily mode
returns, as a function of the environment alone. -/
def nkjvDailyPick (env : VerseEnv) : Verse :=
  let verses := (loadNKJVVerses env).verses
  let v := verses.getD (getDailyIndex verses.length "nkjv-verse" env.today)
    junkBVerse
  ⟨v.reference, v.text, "NKJV", true⟩

/-! ## Concrete fixtures used by witnesses and counterexamples -/

def vESV1 : Verse :=
  { reference := "John 3:16", text := "text one", translation := "ESV"
    isOffline := false }

def vESV2 : Verse :=
  { reference := "Romans 8:28", text := "text two", translation := "ESV"
    isOffline := false }

def vESV3 : Verse :=
  { reference := "Psalm 23:1", text := "text three", translation := "ESV"
    isOffline := false }

def bundle1 : NKJVData :=
  { translation := "NKJV"
    verses := [
      { id := "john-3-16", reference := "John 3:16"
        text := "For God so loved the world." },
      { id := "psalm-23-1", reference := "Psalm 23:1"
        text := "The LORD is my shepherd." }] }

/-- A day with the quota reachable but every request failing. -/
def env1 : VerseEnv :=
  { today := "2024-01-15", bundle := some bundle1
    fetchESV := fun _ => none, rnd := fun _ => 0 }

/-- Quota exhausted after five recorded calls, two fetched verses,
rotation index 0, nothing cached. -/
def st1 : VerseSt :=
  { translation := "ESV", cachedDaily := none
    apiUsage := some ⟨"2024-01-15", 5, [vESV1, vESV2]⟩
    rotation := some 0, verseHistory := [], rndIdx := 0 }

def stubESVResp : ESVResp :=
  { canonical := "John 3:16"
    passages := ["For God so loved the world [16]..."] }

/-- A day on which the remote API always answers with the stub passage. -/
def env3 : VerseEnv :=
  { today := "2024-01-15", bundle := some bundle1
    fetchESV := fun _ => some stubESVResp, rnd := fun _ => 0 }

def st3 : VerseSt :=
  { translation := "ESV", cachedDaily := none, apiUsage := none
    rotation := none, verseHistory := [], rndIdx := 0 }

def st4 : VerseSt :=
  { translation := "ESV", cachedDaily := some ("2024-01-15", vESV1)
    apiUsage := none, rotation := none, verseHistory := [], rndIdx := 0 }

def st4b : VerseSt :=
  { translation := "NKJV", cachedDaily := some ("2024-01-15", vESV1)
    apiUsage := none, rotation := none, verseHistory := [], rndIdx := 0 }

def st9 : VerseSt :=
  { translation := "NKJV", cachedDaily := none, apiUsage := none
    rotation := none, verseHistory := [], rndIdx := 0 }

def bgImgGalaxy : BgImage :=
  { id := "galaxy-01", path := "https://images.example/galaxy-01"
    alt := "Galaxy", category := "galaxy", photographer := some "ph"
    photographerUrl := some "phu", isUnsplash := true, isCustom := false }

def catsNatureOnly : Cats :=
  { nature := true, galaxy := false, oceans := false, mountains := false
    underwater := false }

def bgEnv5 : BgEnv :=
  { today := "2024-01-15", imagesData := some builtinImagesData
    customImages := [], imageUrl := fun _ => none, unsplash := fun _ => none
    preloadOk := fun _ => true, rnd := fun _ => 0, coin := fun _ => false }

/-- A cached remote galaxy image dated today. -/
def bgSt5 : BgSt :=
  { cachedImage := some ("2024-01-15", bgImgGalaxy), imageHistory := []
    customHistory := [], rndIdx := 0 }

def store6 : Store :=
  fun k => if k = "favorites" then some (.vother 7) else none

/-- A partial update touching a background-affecting key. -/
def partialBg : SettingsPartial :=
  { verseMode := none, backgroundMode := none
    backgroundSource := some "custom", theme := none, translation := none
    fontSize := none, enabledCategories := none }

/-- A partial update touching no background-affecting key. -/
def partialTheme : SettingsPartial :=
  { verseMode := none, backgroundMode := none, backgroundSource := none
    theme := some "dark", translation := none, fontSize := none
    enabledCategories := none }

def imgFileOk : ImgFile :=
  { name := "photo.png", type := "image/png", size := 1000 }

def imgFileBad : ImgFile :=
  { name := "notes.txt", type := "text/plain", size := 1000 }

def imgFileBig : ImgFile :=
  { name := "big.png", type := "image/png", size := 5 * 1024 * 1024 + 1 }

/-- A blob store already holding ten records. -/
def db10 : List CustomMeta :=
  (List.range 10).map fun i =>
    { id := "img" ++ toString i, name := "img", type := "image/png"
      size := 10, order := i, addedAt := 0 }

/-! ## Helper lemmas -/

theorem availIdx_all_contained (idOf : α → String) (history : List String) :
    ∀ (l : List α) (k : Nat), (∀ a ∈ l, history.contains (idOf a) = true) →
      availIdx idOf history l k = [] := by
  intro l
  induction l with
  | nil => intro k _; rfl
  | cons x xs ih =>
    intro k hall
    have hx : history.contains (idOf x) = true := hall x (List.mem_cons_self _ _)
    simp only [availIdx, hx, if_true]
    exact ih (k + 1) fun a ha => hall a (List.mem_cons_of_mem _ ha)

theorem availIdx_singleton (idOf : α → String) (history : List String) :
    ∀ (l : List α) (k i : Nat) (hi : i < l.length),
      history.contains (idOf (l.get ⟨i, hi⟩)) = false →
      (∀ (j : Nat) (hj : j < l.length), j ≠ i →
        history.contains (idOf (l.get ⟨j, hj⟩)) = true) →
      availIdx idOf history l k = [k + i] := by
  intro l
  induction l with
  | nil => intro k i hi; exact absurd hi (by simp)
  | cons x xs ih =>
    intro k i hi hfree hrest
    cases i with
    | zero =>
      have hx : history.contains (idOf x) = false := hfree
      simp only [availIdx, hx, Bool.false_eq_true, if_false, Nat.add_zero]
      have hxs : availIdx idOf history xs (k + 1) = [] := by
        apply availIdx_all_contained
        intro a ha
        obtain ⟨j, hj, rfl⟩ := List.mem_iff_get.mp ha
        exact hrest (j + 1) (by simpa using Nat.succ_lt_succ j.isLt) (by simp)
      rw [hxs]
    | succ i' =>
      have hx : history.contains (idOf x) = true := by
        exact hrest 0 (by simp) (by simp)
      simp only [availIdx, hx, if_true]
      have hi' : i' < xs.length := Nat.lt_of_succ_lt_succ hi
      have := ih (k + 1) i' hi'
        (by simpa using hfree)
        (by
          intro j hj hne
          have := hrest (j + 1) (by simpa using Nat.succ_lt_succ hj)
            (by simpa using hne)
          simpa using this)
      rw [this]
      congr 1
      omega

theorem mem_availIdx_lt (idOf : α → String) (history : List String) :
    ∀ (l : List α) (k j : Nat), j ∈ availIdx idOf history l k →
      j < k + l.length := by
  intro l
  induction l with
  | nil => intro k j hj; simp [availIdx] at hj
  | cons x xs ih =>
    intro k j hj
    simp only [availIdx] at hj
    by_cases hx : history.contains (idOf x) = true
    · simp only [hx, if_true] at hj
      have := ih (k + 1) j hj
      simp only [List.length_cons]
      omega
    · simp only [Bool.not_eq_true] at hx
      simp only [hx, Bool.false_eq_true, if_false, List.mem_cons] at hj
      rcases hj with rfl | hj
      · simp only [List.length_cons]; omega
      · have := ih (k + 1) j hj
        simp only [List.length_cons]
        omega

/-- C2: for every seed string and every length L > 0, getDailyIndex returns
an index in the range below L, and the result is a pure function of seed,
current date and L, so two calls with the same inputs agree. -/
theorem C2_getDailyIndex_range_and_deterministic
    (seed today : String) (L : Nat) (hL : 0 < L) :
    getDailyIndex L seed today < L ∧
      ∀ seed2 today2 L2, seed2 = seed → today2 = today → L2 = L →
        getDailyIndex L2 seed2 today2 = getDailyIndex L seed today := by
  refine ⟨Nat.mod_lt _ hL, ?_⟩
  intro seed2 today2 L2 hs ht hl
  rw [hs, ht, hl]

theorem C2_getDailyIndex_witness :
    getDailyIndex 365 "daily-verse" "2024-01-15" < 365 :=
  (C2_getDailyIndex_range_and_deterministic "daily-verse" "2024-01-15" 365
    (by decide)).1

/-- C8: for every non-empty item list, if the history excludes all items
but one then getRandomIndexWithHistory returns the index of that remaining
item for every random draw, and if the history contains the ids of all
items the returned value is still an index below items.length. -/
theorem C8_getRandomIndexWithHistory_spec
    {α : Type} (items : List α) (idOf : α → String) (history : List String)
    (draw : Nat) (hne : items ≠ []) :
    (∀ (i : Nat) (hi : i < items.length),
        history.contains (idOf (items.get ⟨i, hi⟩)) = false →
        (∀ (j : Nat) (hj : j < items.length), j ≠ i →
          history.contains (idOf (items.get ⟨j, hj⟩)) = true) →
        getRandomIndexWithHistory items history idOf draw = i) ∧
    ((∀ a ∈ items, history.contains (idOf a) = true) →
        getRandomIndexWithHistory items history idOf draw < items.length) := by
  constructor
  · intro i hi hfree hrest
    unfold getRandomIndexWithHistory
    rw [availIdx_singleton idOf history items 0 i hi hfree hrest]
    simp [jsRandInt, Nat.mod_one]
  · intro hall
    unfold getRandomIndexWithHistory
    rw [availIdx_all_contained idOf history items 0 hall]
    have hlen : items.length ≠ 0 := by
      simpa [List.length_eq_zero] using hne
    simp only [List.isEmpty_nil, if_true, jsRandInt, hlen, if_false]
    exact Nat.mod_lt _ (Nat.pos_of_ne_zero hlen)

theorem C8_getRandomIndexWithHistory_witness :
    getRandomIndexWithHistory ["a", "b", "c"] ["a", "c"] (fun s => s) 7 = 1 ∧
    getRandomIndexWithHistory ["a", "b", "c"] ["a", "b", "c"] (fun s => s) 7 <
      List.length ["a", "b", "c"] := by
  constructor
  · exact (C8_getRandomIndexWithHistory_spec ["a", "b", "c"] (fun s => s)
      ["a", "c"] 7 (by decide)).1 1 (by decide) (by decide) (by decide)
  · exact (C8_getRandomIndexWithHistory_spec ["a", "b", "c"] (fun s => s)
      ["a", "b", "c"] 7 (by decide)).2 (by decide)

theorem length_insertByOrder (x : CustomMeta) (l : List CustomMeta) :
    (insertByOrder x l).length = l.length + 1 := by
  induction l with
  | nil => rfl
  | cons y ys ih =>
    simp only [insertByOrder]
    split
    · simp
    · simp [ih]

theorem length_sortByOrder (l : List CustomMeta) :
    (sortByOrder l).length = l.length := by
  induction l with
  | nil => rfl
  | cons x xs ih => simp [sortByOrder, length_insertByOrder, ih]

/-- C10: recordApiCall increments the day counter by exactly one and
appends the verse to the fetched list only when no entry with the same
reference is present, so the invariant fetchedVerses.length ≤ callCount
is preserved by every operation (and holds for the fresh day record). -/
theorem C10_recordApiCall_spec (env : VerseEnv) (st : VerseSt) (v : Verse) :
    ∃ u', (recordApiCall env st v).apiUsage = some u' ∧
      u'.date = (getApiUsage env st).date ∧
      u'.callCount = (getApiUsage env st).callCount + 1 ∧
      ((getApiUsage env st).fetchedVerses.any
          (fun w => w.reference = v.reference) = true →
        u'.fetchedVerses = (getApiUsage env st).fetchedVerses) ∧
      ((getApiUsage env st).fetchedVerses.any
          (fun w => w.reference = v.reference) = false →
        u'.fetchedVerses = (getApiUsage env st).fetchedVerses ++ [v]) ∧
      u'.fetchedVerses.length ≤ (getApiUsage env st).fetchedVerses.length + 1 ∧
      ((getApiUsage env st).fetchedVerses.length ≤
          (getApiUsage env st).callCount →
        u'.fetchedVerses.length ≤ u'.callCount) ∧
      ((∀ u0, st.apiUsage = some u0 → u0.date = env.today →
          u0.fetchedVerses.length ≤ u0.callCount) →
        u'.fetchedVerses.length ≤ u'.callCount) := by
  have hbase : (∀ u0, st.apiUsage = some u0 → u0.date = env.today →
      u0.fetchedVerses.length ≤ u0.callCount) →
      (getApiUsage env st).fetchedVerses.length ≤
        (getApiUsage env st).callCount := by
    intro hinv
    unfold getApiUsage
    cases h0 : st.apiUsage with
    | none => simp
    | some u0 =>
      by_cases hdate : u0.date = env.today
      · simpa [hdate] using hinv u0 h0 hdate
      · simp [hdate]
  by_cases hany : ((getApiUsage env st).fetchedVerses.any
      fun w => w.reference = v.reference) = true
  · have e : recordApiCall env st v =
        { st with
          apiUsage := some (ApiUsage.mk (getApiUsage env st).date
            ((getApiUsage env st).callCount + 1)
            (getApiUsage env st).fetchedVerses) } := by
      simp only [recordApiCall, hany, if_true]
    rw [e]
    refine ⟨_, rfl, rfl, rfl, fun _ => rfl, ?_, Nat.le_succ _, ?_, ?_⟩
    · intro hf
      rw [hany] at hf
      exact absurd hf (by simp)
    · intro hinv
      exact Nat.le_succ_of_le hinv
    · intro hinv
      exact Nat.le_succ_of_le (hbase hinv)
  · rw [Bool.not_eq_true] at hany
    have e : recordApiCall env st v =
        { st with
          apiUsage := some (ApiUsage.mk (getApiUsage env st).date
            ((getApiUsage env st).callCount + 1)
            ((getApiUsage env st).fetchedVerses ++ [v])) } := by
      simp only [recordApiCall, hany, Bool.false_eq_true, if_false]
    rw [e]
    refine ⟨_, rfl, rfl, rfl, ?_, fun _ => rfl, by simp, ?_, ?_⟩
    · intro ht
      rw [hany] at ht
      exact absurd ht (by simp)
    · intro hinv
      simp only [List.length_append, List.length_cons, List.length_nil]
      omega
    · intro hinv
      have := hbase hinv
      simp only [List.length_append, List.length_cons, List.length_nil]
      omega

theorem C10_recordApiCall_witness :
    ∃ u', (recordApiCall env1 st1 vESV1).apiUsage = some u' ∧
      u'.callCount = 6 ∧ u'.fetchedVerses = [vESV1, vESV2] := by
  obtain ⟨u', h1, _, h3, h4, _⟩ := C10_recordApiCall_spec env1 st1 vESV1
  refine ⟨u', h1, ?_, ?_⟩
  · rw [h3]; decide
  · rw [h4 (by decide)]; decide

/-- C6: updateSettings clears the cached daily image (writes null) exactly
when the partial update carries a background-affecting key
(backgroundMode, backgroundSource or enabledCategories), and never touches
any stored key other than the settings blob and the cached daily image. -/
theorem C6_updateSettings_cache_invalidation (p : SettingsPartial)
    (store : Store) :
    (backgroundChanged p = true →
      (updateSettings p store).2 "cached-daily-image" = some .vnull) ∧
    (backgroundChanged p = false →
      (updateSettings p store).2 "cached-daily-image" =
        store "cached-daily-image") ∧
    (∀ k, k ≠ "settings" → k ≠ "cached-daily-image" →
      (updateSettings p store).2 k = store k) := by
  refine ⟨?_, ?_, ?_⟩
  · intro h
    unfold updateSettings
    simp [h, setStore]
  · intro h
    unfold updateSettings
    simp only [h, Bool.false_eq_true, if_false, setStore]
    rw [if_neg (by decide)]
  · intro k hk1 hk2
    unfold updateSettings
    by_cases h : backgroundChanged p
    · simp only [h, if_true, setStore]
      rw [if_neg hk2, if_neg hk1]
    · simp only [h, Bool.false_eq_true, if_false, setStore]
      rw [if_neg hk1]

theorem C6_updateSettings_witness :
    (updateSettings partialBg store6).2 "cached-daily-image" =
        some .vnull ∧
      (updateSettings partialTheme store6).2 "cached-daily-image" = none ∧
      (updateSettings partialBg store6).2 "favorites" = some (.vother 7) := by
  refine ⟨?_, ?_, ?_⟩
  · exact (C6_updateSettings_cache_invalidation partialBg store6).1 (by decide)
  · have := (C6_updateSettings_cache_invalidation partialTheme store6).2.1
      (by decide)
    rw [this]; decide
  · have := (C6_updateSettings_cache_invalidation partialBg store6).2.2
      "favorites" (by decide) (by decide)
    rw [this]; decide

/-- C7: addImage rejects, before writing anything, a store already at the
ten-image quota, a file whose media type is not an image, and a file
larger than five megabytes; in every failure case the store contents are
returned unchanged. -/
theorem C7_addImage_failures (file : ImgFile) (newId : String) (now : Nat)
    (db : List CustomMeta) :
    (db.length = MAX_CUSTOM_IMAGES →
      (addImage file newId now db).1 = Except.error
        "Maximum of 10 images allowed. Please remove an image first." ∧
      (addImage file newId now db).2 = db ∧
      (addImage file newId now db).2.length = MAX_CUSTOM_IMAGES) ∧
    (strStartsWith file.type "image/" = false →
      (∃ msg, (addImage file newId now db).1 = Except.error msg) ∧
      (addImage file newId now db).2 = db) ∧
    (5 * 1024 * 1024 < file.size →
      (∃ msg, (addImage file newId now db).1 = Except.error msg) ∧
      (addImage file newId now db).2 = db) := by
  have hlen : (getAllImages db).length = db.length := length_sortByOrder db
  refine ⟨?_, ?_, ?_⟩
  · intro h10
    have hquota : (getAllImages db).length ≥ MAX_CUSTOM_IMAGES := by
      rw [hlen, h10]
    have e : addImage file newId now db = (Except.error
        "Maximum of 10 images allowed. Please remove an image first.", db) := by
      unfold addImage
      rw [if_pos hquota]
    rw [e, h10]
    exact ⟨rfl, rfl, rfl⟩
  · intro hbad
    by_cases hquota : (getAllImages db).length ≥ MAX_CUSTOM_IMAGES
    · have e : addImage file newId now db = (Except.error
          "Maximum of 10 images allowed. Please remove an image first.",
          db) := by
        unfold addImage
        rw [if_pos hquota]
      rw [e]
      exact ⟨⟨_, rfl⟩, rfl⟩
    · have e : addImage file newId now db =
          (Except.error "File must be an image", db) := by
        unfold addImage
        rw [if_neg hquota, if_pos (by rw [hbad]; rfl)]
      rw [e]
      exact ⟨⟨_, rfl⟩, rfl⟩
  · intro hbig
    by_cases hquota : (getAllImages db).length ≥ MAX_CUSTOM_IMAGES
    · have e : addImage file newId now db = (Except.error
          "Maximum of 10 images allowed. Please remove an image first.",
          db) := by
        unfold addImage
        rw [if_pos hquota]
      rw [e]
      exact ⟨⟨_, rfl⟩, rfl⟩
    · by_cases htype : strStartsWith file.type "image/" = true
      · have e : addImage file newId now db =
            (Except.error "Image must be smaller than 5MB", db) := by
          unfold addImage
          rw [if_neg hquota, if_neg (by rw [htype]; exact Bool.false_ne_true),
            if_pos hbig]
        rw [e]
        exact ⟨⟨_, rfl⟩, rfl⟩
      · have e : addImage file newId now db =
            (Except.error "File must be an image", db) := by
          unfold addImage
          rw [if_neg hquota,
            if_pos (by rw [Bool.not_eq_true] at htype; rw [htype]; rfl)]
        rw [e]
        exact ⟨⟨_, rfl⟩, rfl⟩

theorem C7_addImage_witness :
    (addImage imgFileOk "newid" 99 db10).1 = Except.error
        "Maximum of 10 images allowed. Please remove an image first." ∧
      (addImage imgFileOk "newid" 99 db10).2 = db10 ∧
      (∃ msg, (addImage imgFileBad "newid" 99 []).1 = Except.error msg) ∧
      (addImage imgFileBad "newid" 99 []).2 = [] ∧
      (∃ msg, (addImage imgFileBig "newid" 99 []).1 = Except.error msg) ∧
      (addImage imgFileBig "newid" 99 []).2 = [] := by
  obtain ⟨hq, _, _⟩ := C7_addImage_failures imgFileOk "newid" 99 db10
  obtain ⟨h1, h2, h3⟩ := hq (by decide)
  obtain ⟨_, ht, _⟩ := C7_addImage_failures imgFileBad "newid" 99 []
  obtain ⟨h4, h5⟩ := ht (by decide)
  obtain ⟨_, _, hs⟩ := C7_addImage_failures imgFileBig "newid" 99 []
  obtain ⟨h6, h7⟩ := hs (by decide)
  exact ⟨h1, h2, h4, h5, h6, h7⟩

set_option maxRecDepth 8000 in
/-- C5 counterexample: a cached remote (non-custom) image dated today whose
category (galaxy) is no longer among the enabled categories is still
returned by getBackgroundImage in daily mode, although the claim requires
the image to be recomputed; the recomputation would have produced the
bundled nature image instead. -/
theorem C5_counterexample :
    catEnabled catsNatureOnly bgImgGalaxy.category = false ∧
    bgImgGalaxy.isCustom = false ∧
    (getBackgroundImage .daily catsNatureOnly "unsplash" bgEnv5 bgSt5).1 =
      bgImgGalaxy ∧
    (getBackgroundImage .daily catsNatureOnly "unsplash" bgEnv5 bgSt5).2 =
      bgSt5 ∧
    ¬((computeBackground .daily catsNatureOnly "unsplash" bgEnv5 bgSt5).1 =
      bgImgGalaxy) := by
  decide

/-- C5 (amended): in daily mode getBackgroundImage accepts a cached image
dated today exactly when its source type (custom or not) matches the
current source setting; the enabled categories are not consulted by the
cache check (category changes invalidate the cache through updateSettings
instead).  On a source-type mismatch the whole call equals the
recomputation path. -/
theorem C5_getBackgroundImage_cache (env : BgEnv) (st : BgSt) (cats : Cats)
    (source d : String) (img : BgImage)
    (hc : st.cachedImage = some (d, img)) (hd : d = env.today) :
    (sourceMatchesCache source img.isCustom = true →
      getBackgroundImage .daily cats source env st = (img, st)) ∧
    (sourceMatchesCache source img.isCustom = false →
      getBackgroundImage .daily cats source env st =
        computeBackground .daily cats source env st) := by
  subst hd
  constructor
  · intro h
    unfold getBackgroundImage
    rw [hc]
    simp [h]
  · intro h
    unfold getBackgroundImage
    rw [hc]
    simp [h]

theorem C5_getBackgroundImage_cache_witness :
    getBackgroundImage .daily catsNatureOnly "unsplash" bgEnv5 bgSt5 =
        (bgImgGalaxy, bgSt5) ∧
      getBackgroundImage .daily catsNatureOnly "custom" bgEnv5 bgSt5 =
        computeBackground .daily catsNatureOnly "custom" bgEnv5 bgSt5 := by
  constructor
  · exact (C5_getBackgroundImage_cache bgEnv5 bgSt5 catsNatureOnly "unsplash"
      "2024-01-15" bgImgGalaxy rfl rfl).1 (by decide)
  · exact (C5_getBackgroundImage_cache bgEnv5 bgSt5 catsNatureOnly "custom"
      "2024-01-15" bgImgGalaxy rfl rfl).2 (by decide)

theorem rotateForce_source_ne_cache (mode : Mode) (env : VerseEnv)
    (st : VerseSt) (a : Nat) : (rotateForce mode env st a).source ≠ .cache := by
  by_cases h : 0 < (getApiUsage env st).fetchedVerses.length
  · simp [rotateForce, h]
  · simp [rotateForce, h]

theorem rotateNormal_source_ne_cache (mode : Mode) (env : VerseEnv)
    (st : VerseSt) (a : Nat) :
    (rotateNormal mode env st a).source ≠ .cache := by
  by_cases h : 0 < (getApiUsage env st).fetchedVerses.length
  · by_cases hm : mode = .daily
    · simp [rotateNormal, h, hm]
    · simp [rotateNormal, h, hm]
  · simp [rotateNormal, h]

/-- C4: a cached daily verse dated today is returned by
getVerse daily (forceNew = false) exactly when its translation equals the
current translation preference; when the preference was changed to a
different value the cache branch is not taken, despite the matching
date. -/
theorem C4_cached_daily_translation (env : VerseEnv) (st : VerseSt)
    (d : String) (c : Verse)
    (hc : st.cachedDaily = some (d, c)) (hd : d = env.today) :
    (c.translation = effTranslation st →
      getVerse .daily false env st = ⟨c, st, .cache, 0⟩) ∧
    (c.translation ≠ effTranslation st →
      (getVerse .daily false env st).source ≠ .cache) := by
  have hcv : getCachedDailyVerse env st = some c := by
    unfold getCachedDailyVerse
    rw [hc]
    simp [hd]
  constructor
  · intro ht
    have hhit : verseCacheHit .daily false env st = some c := by
      unfold verseCacheHit
      rw [hcv]
      simp [ht]
    unfold getVerse
    rw [hhit]
  · intro ht
    have hhit : verseCacheHit .daily false env st = none := by
      unfold verseCacheHit
      rw [hcv]
      simp [ht]
    unfold getVerse
    rw [hhit]
    by_cases hn : effTranslation st = "NKJV"
    · simp [hn]
    · simp only [hn, Bool.false_eq_true, if_false]
      by_cases hq : canMakeApiCall env st = true
      · simp only [hq, if_true]
        cases hf : (fetchVerseFromESV .daily env st).1 with
        | some v => simp [hf]
        | none =>
          simp only [hf]
          exact rotateNormal_source_ne_cache _ _ _ _
      · simp only [Bool.not_eq_true] at hq
        simp only [hq, Bool.false_eq_true, if_false]
        exact rotateNormal_source_ne_cache _ _ _ _

theorem C4_cached_daily_witness :
    getVerse .daily false env1 st4 = ⟨vESV1, st4, .cache, 0⟩ ∧
    (getVerse .daily false env1 st4b).source ≠ .cache := by
  constructor
  · exact (C4_cached_daily_translation env1 st4 "2024-01-15" vESV1 rfl
      rfl).1 (by decide)
  · exact (C4_cached_daily_translation env1 st4b "2024-01-15" vESV1 rfl
      rfl).2 (by decide)

set_option maxRecDepth 8000 in
/-- C1 counterexample: quota exhausted (five recorded calls), two fetched
verses, rotation index 0, no cached daily verse.  getVerse daily with
forceNew = false returns the rotation entry but leaves the rotation index
at 0, not at (0 + 1) mod 2 = 1 as the claim requires, and the following
getVerse daily call is served from the cache rather than by another
rotation; the per-call index advance happens only on the forceNew path. -/
theorem C1_counterexample :
    canMakeApiCall env1 st1 = false ∧
    (getVerse .daily false env1 st1).source = .rotation ∧
    (getVerse .daily false env1 st1).verse = vESV1 ∧
    getVerseRotationIndex (getVerse .daily false env1 st1).st = 0 ∧
    ¬(getVerseRotationIndex (getVerse .daily false env1 st1).st =
      (getVerseRotationIndex st1 + 1) % 2) ∧
    (getVerse .daily false env1 (getVerse .daily false env1 st1).st).source =
      .cache := by
  decide

/-- C1 (amended): after MAX_DAILY_API_CALLS recorded calls on a day,
canMakeApiCall is false.  With the quota exhausted and a non-empty
fetched-verse list, getVerse daily with forceNew = true rotates: it
returns the entry at VerseRotationState.index modulo the list length,
advances the index to (index + 1) mod len (cycling back to 0 after len
rotations), caches the returned verse, and makes no remote request.  A
plain getVerse daily call (forceNew = false) that is not served from the
cache returns the entry at index modulo the list length and caches it,
but does not advance the index; it makes no remote request either, and
later non-forced calls are served from the cache. -/
theorem C1_quota_rotation (env : VerseEnv) (st : VerseSt) :
    ((getApiUsage env st).callCount = MAX_DAILY_API_CALLS →
      canMakeApiCall env st = false) ∧
    (canMakeApiCall env st = false →
      effTranslation st ≠ "NKJV" →
      0 < (getApiUsage env st).fetchedVerses.length →
      (let fetched := (getApiUsage env st).fetchedVerses
       let r := getVerse .daily true env st
       r.esvAttempts = 0 ∧ r.source = .rotation ∧
       r.verse = fetched.getD (getVerseRotationIndex st % fetched.length)
         junkVerse ∧
       getVerseRotationIndex r.st =
         (getVerseRotationIndex st + 1) % fetched.length ∧
       r.st.cachedDaily = some (env.today, r.verse))) ∧
    (canMakeApiCall env st = false →
      effTranslation st ≠ "NKJV" →
      0 < (getApiUsage env st).fetchedVerses.length →
      verseCacheHit .daily false env st = none →
      (let fetched := (getApiUsage env st).fetchedVerses
       let r := getVerse .daily false env st
       r.esvAttempts = 0 ∧ r.source = .rotation ∧
       r.verse = fetched.getD (getVerseRotationIndex st % fetched.length)
         junkVerse ∧
       getVerseRotationIndex r.st = getVerseRotationIndex st ∧
       r.st.cachedDaily = some (env.today, r.verse))) := by
  refine ⟨?_, ?_, ?_⟩
  · intro h
    unfold canMakeApiCall
    rw [h]
    simp
  · intro hq hT hlen
    have hlen1 : (getApiUsage env st).fetchedVerses.length - 1 + 1 =
        (getApiUsage env st).fetchedVerses.length :=
      Nat.succ_pred_eq_of_pos hlen
    have hhit : verseCacheHit .daily true env st = none := by
      unfold verseCacheHit
      simp
    have e : getVerse .daily true env st = rotateForce .daily env st 0 := by
      unfold getVerse
      rw [hhit, if_neg hT]
      simp [hq]
    have e2 : rotateForce .daily env st 0 = GVRes.mk
        ((getApiUsage env st).fetchedVerses.getD
          (getVerseRotationIndex st %
            (getApiUsage env st).fetchedVerses.length) junkVerse)
        (cacheDailyVerse env
          (incrementVerseRotationIndex st
            ((getApiUsage env st).fetchedVerses.length - 1))
          ((getApiUsage env st).fetchedVerses.getD
            (getVerseRotationIndex st %
              (getApiUsage env st).fetchedVerses.length) junkVerse))
        .rotation 0 := by
      unfold rotateForce
      rw [if_pos hlen]
    rw [e, e2]
    refine ⟨rfl, rfl, rfl, ?_, rfl⟩
    simp only [cacheDailyVerse, incrementVerseRotationIndex,
      getVerseRotationIndex, Option.getD_some]
    rw [hlen1]
  · intro hq hT hlen hhit
    have e : getVerse .daily false env st = rotateNormal .daily env st 0 := by
      unfold getVerse
      rw [hhit, if_neg hT]
      simp [hq]
    have e2 : rotateNormal .daily env st 0 = GVRes.mk
        ((getApiUsage env st).fetchedVerses.getD
          (getVerseRotationIndex st %
            (getApiUsage env st).fetchedVerses.length) junkVerse)
        (cacheDailyVerse env st
          ((getApiUsage env st).fetchedVerses.getD
            (getVerseRotationIndex st %
              (getApiUsage env st).fetchedVerses.length) junkVerse))
        .rotation 0 := by
      unfold rotateNormal
      rw [if_pos hlen]
      rfl
    rw [e, e2]
    exact ⟨rfl, rfl, rfl, rfl, rfl⟩

set_option maxRecDepth 8000 in
theorem C1_quota_rotation_witness :
    canMakeApiCall env1 st1 = false ∧
    getVerseRotationIndex (getVerse .daily true env1 st1).st = 1 ∧
    (getVerse .daily true env1 st1).esvAttempts = 0 ∧
    (getVerse .daily false env1 st1).esvAttempts = 0 := by
  refine ⟨(C1_quota_rotation env1 st1).1 (by decide), ?_, ?_, ?_⟩
  · obtain ⟨_, _, _, h4, _⟩ :=
      (C1_quota_rotation env1 st1).2.1 (by decide) (by decide) (by decide)
    rw [h4]
    decide
  · obtain ⟨h1, _⟩ :=
      (C1_quota_rotation env1 st1).2.1 (by decide) (by decide) (by decide)
    exact h1
  · obtain ⟨h1, _⟩ :=
      (C1_quota_rotation env1 st1).2.2 (by decide) (by decide) (by decide)
        (by decide)
    exact h1

set_option maxRecDepth 8000 in
/-- C3 counterexample: with the remote API stubbed to answer the canonical
reference John 3:16 and the passage text containing the bracketed footnote
marker, getVerse delivers the text with the marker still present (only
whitespace is collapsed in fetchFromESV), not the marker-free text the
claim requires. -/
theorem C3_counterexample :
    (getVerse .daily false env3 st3).source = .fetched ∧
    (getVerse .daily false env3 st3).verse.reference = "John 3:16" ∧
    (getVerse .daily false env3 st3).verse.text =
      "For God so loved the world [16]..." ∧
    ¬((getVerse .daily false env3 st3).verse.text =
      "For God so loved the world...") ∧
    ¬((getVerse .daily false env3 st3).verse.text =
      cleanVerseText "For God so loved the world [16]...") := by
  decide

theorem fetchFromESV_of_resp (env : VerseEnv) (reference canonical raw :
    String) (rest : List String)
    (hf : env.fetchESV reference = some ⟨canonical, raw :: rest⟩) :
    fetchFromESV reference env = some
      { reference := if canonical = "" then reference else canonical
        text := cleanESVText raw
        translation := "ESV"
        isOffline := false } := by
  unfold fetchFromESV
  rw [hf]

/-- C3 (amended): on every successful remote fetch inside getVerse the
delivered text is the first passage with whitespace runs collapsed to
single spaces and trimmed; bracketed footnote markers are not stripped on
this path (the request disables footnotes, so none are expected).  The
marker-stripping `[\d+]` replace lives in the backend daily-verse
endpoint (cleanVerseText), which does remove it from the example text. -/
theorem C3_remote_text_spec (env : VerseEnv) (st : VerseSt)
    (canonical raw : String) (rest : List String)
    (hf : ∀ ref, env.fetchESV ref = some ⟨canonical, raw :: rest⟩)
    (hT : effTranslation st ≠ "NKJV")
    (hq : canMakeApiCall env st = true) :
    (∀ mode forceNew, verseCacheHit mode forceNew env st = none →
      (getVerse mode forceNew env st).verse.text = cleanESVText raw ∧
      (getVerse mode forceNew env st).source = .fetched ∧
      (getVerse mode forceNew env st).esvAttempts = 1) ∧
    cleanVerseText "For God so loved the world [16]..." =
      "For God so loved the world ..." := by
  constructor
  · intro mode forceNew hhit
    have hfr : ∃ v, (fetchVerseFromESV mode env st).1 = some v ∧
        v.text = cleanESVText raw := by
      cases mode with
      | daily =>
        exact ⟨_, fetchFromESV_of_resp env _ canonical raw rest (hf _), rfl⟩
      | random =>
        exact ⟨_, fetchFromESV_of_resp env _ canonical raw rest (hf _), rfl⟩
    obtain ⟨v, hv1, hv2⟩ := hfr
    cases forceNew with
    | true =>
      have e : getVerse mode true env st = GVRes.mk v
          (cacheDailyVerse env
            (recordApiCall env (fetchVerseFromESV mode env st).2 v) v)
          .fetched 1 := by
        unfold getVerse
        rw [hhit, if_neg hT]
        simp [hq, hv1]
      rw [e]
      exact ⟨hv2, rfl, rfl⟩
    | false =>
      have e : getVerse mode false env st = GVRes.mk v
          (if mode = .daily then
            cacheDailyVerse env
              (recordApiCall env (fetchVerseFromESV mode env st).2 v) v
          else recordApiCall env (fetchVerseFromESV mode env st).2 v)
          .fetched 1 := by
        unfold getVerse
        rw [hhit, if_neg hT]
        simp [hq, hv1]
      rw [e]
      exact ⟨hv2, rfl, rfl⟩
  · decide

set_option maxRecDepth 8000 in
theorem C3_remote_text_witness :
    (getVerse .daily false env3 st3).verse.text =
      cleanESVText "For God so loved the world [16]..." ∧
    cleanVerseText "For God so loved the world [16]..." =
      "For God so loved the world ..." := by
  obtain ⟨h1, h2⟩ := C3_remote_text_spec env3 st3 "John 3:16"
    "For God so loved the world [16]..." [] (fun _ => rfl) (by decide)
    (by decide)
  exact ⟨(h1 .daily false (by decide)).1, h2⟩

theorem getVerse_daily_nkjv (env : VerseEnv) (st : VerseSt) (forceNew : Bool)
    (hT : effTranslation st = "NKJV")
    (hhit : verseCacheHit .daily forceNew env st = none) :
    getVerse .daily forceNew env st = GVRes.mk (nkjvDailyPick env)
      (cacheDailyVerse env st (nkjvDailyPick env)) .offline 0 := by
  unfold getVerse
  rw [hhit]
  simp [hT]
  exact ⟨rfl, rfl⟩

/-- C9: the shipped default translation is NKJV, and with the NKJV
preference getVerse never issues a remote request and never fails: in
daily mode (any forceNew) the returned verse is the dailyIndex pick from
the bundled list (or the built-in single-verse list when the bundle is
unreadable), and ends up cached as the daily verse; in random mode the
verse is the history-avoiding random pick.  The hypothesis on the cached
verse reflects the reachable states: every NKJV cached verse dated today
was written by the same daily offline pick. -/
theorem C9_nkjv_offline (env : VerseEnv) (st : VerseSt)
    (ht : st.translation = "NKJV")
    (hb : ∀ b, env.bundle = some b → b.verses ≠ [])
    (hcache : ∀ d v, st.cachedDaily = some (d, v) → d = env.today →
      v.translation = "NKJV" → v = nkjvDailyPick env) :
    DEFAULT_SETTINGS.translation = "NKJV" ∧
    (loadNKJVVerses env).verses ≠ [] ∧
    (∀ forceNew,
      (getVerse .daily forceNew env st).esvAttempts = 0 ∧
      (getVerse .daily forceNew env st).verse = nkjvDailyPick env ∧
      (getVerse .daily forceNew env st).st.cachedDaily =
        some (env.today, nkjvDailyPick env)) ∧
    (∀ forceNew,
      (getVerse .random forceNew env st).esvAttempts = 0 ∧
      (getVerse .random forceNew env st).source = .offline ∧
      (getVerse .random forceNew env st).verse = Verse.mk
        ((loadNKJVVerses env).verses.getD
          (getRandomIndexWithHistory (loadNKJVVerses env).verses
            st.verseHistory (fun b => b.id) (env.rnd st.rndIdx))
          junkBVerse).reference
        ((loadNKJVVerses env).verses.getD
          (getRandomIndexWithHistory (loadNKJVVerses env).verses
            st.verseHistory (fun b => b.id) (env.rnd st.rndIdx))
          junkBVerse).text
        "NKJV" true) := by
  have hT : effTranslation st = "NKJV" := by
    unfold effTranslation
    rw [ht]
    simp
  refine ⟨rfl, ?_, ?_, ?_⟩
  · unfold loadNKJVVerses
    cases hbe : env.bundle with
    | none => simp [builtinNKJVData]
    | some b => simpa using hb b hbe
  · intro forceNew
    cases forceNew with
    | true =>
      have hhit : verseCacheHit .daily true env st = none := by
        unfold verseCacheHit
        simp
      rw [getVerse_daily_nkjv env st true hT hhit]
      exact ⟨rfl, rfl, rfl⟩
    | false =>
      cases hw : getCachedDailyVerse env st with
      | none =>
        have hhit : verseCacheHit .daily false env st = none := by
          unfold verseCacheHit
          rw [hw]
          simp
        rw [getVerse_daily_nkjv env st false hT hhit]
        exact ⟨rfl, rfl, rfl⟩
      | some w =>
        by_cases hwt : w.translation = "NKJV"
        · have hhit : verseCacheHit .daily false env st = some w := by
            unfold verseCacheHit
            rw [hw]
            simp [hwt, hT]
          have hw2 : ∃ d0, st.cachedDaily = some (d0, w) ∧ d0 = env.today := by
            unfold getCachedDailyVerse at hw
            cases hsd : st.cachedDaily with
            | none => rw [hsd] at hw; exact absurd hw (by simp)
            | some p =>
              obtain ⟨d0, v0⟩ := p
              rw [hsd] at hw
              by_cases hd0 : d0 = env.today
              · simp only [hd0, if_true, eq_self_iff_true,
                  Option.some.injEq] at hw
                exact ⟨d0, by rw [hw], hd0⟩
              · simp [hd0] at hw
          obtain ⟨d0, hsd, hd0⟩ := hw2
          have hwp : w = nkjvDailyPick env := hcache d0 w hsd hd0 hwt
          have e : getVerse .daily false env st = GVRes.mk w st .cache 0 := by
            unfold getVerse
            rw [hhit]
          rw [e]
          refine ⟨rfl, hwp, ?_⟩
          rw [hsd, hd0, hwp]
        · have hhit : verseCacheHit .daily false env st = none := by
            unfold verseCacheHit
            rw [hw]
            simp [hT, hwt]
          rw [getVerse_daily_nkjv env st false hT hhit]
          exact ⟨rfl, rfl, rfl⟩
  · intro forceNew
    have hhit : verseCacheHit .random forceNew env st = none := by
      unfold verseCacheHit
      simp
    have e : getVerse .random forceNew env st =
        GVRes.mk (getNKJVFallback .random env st).1
          (getNKJVFallback .random env st).2 .offline 0 := by
      unfold getVerse
      rw [hhit]
      simp [hT]
    rw [e]
    exact ⟨rfl, rfl, rfl⟩

set_option maxRecDepth 8000 in
theorem C9_nkjv_offline_witness :
    (getVerse .daily false env1 st9).esvAttempts = 0 ∧
    (getVerse .daily false env1 st9).verse = nkjvDailyPick env1 ∧
    (getVerse .random true env1 st9).source = .offline := by
  have h := C9_nkjv_offline env1 st9 rfl
    (by
      intro b hbb
      injection hbb with hbb2
      rw [← hbb2]
      decide)
    (by
      intro d v hdv
      simp [st9] at hdv)
  exact ⟨(h.2.2.1 false).1, (h.2.2.1 false).2.1, (h.2.2.2 true).2.1⟩

end BibleNewTab
